import Mathlib

/-!
Shallow embedding of the Remote-Monitor relay server (src/server/index.js).

The server keeps three JavaScript `Map`s:
  * `connectedComputers`  — keyed by the transport socket id,
  * `registeredComputers` — keyed by the durable registration id,
  * `connectionCodes`     — pairing code ↦ durable registration id,
and handles HTTP routes (`GET /api/computers`, `POST /api/computers/register`)
plus socket events (`register-computer`, `pair-computer`, `webcam-frame`,
`frame`, `request-stream`, `stop-stream`, `disconnect`) and a 30-second
stale-connection reaper.

JavaScript `Map`s are modelled as insertion-ordered association lists with
`Map.set` updating an existing key in place; timestamps (`Date` values) are
naturals counting milliseconds; socket emissions are recorded as an explicit
list of `Emit` values instead of being performed.
-/

namespace RemoteMonitor

/-- JavaScript `Map.get`: the value at the first (unique) occurrence of the key. -/
def mapGet {α : Type} (m : List (String × α)) (k : String) : Option α :=
  match m with
  | [] => none
  | (k₁, v₁) :: rest => if k₁ = k then some v₁ else mapGet rest k

/-- JavaScript `Map.set`: update the entry in place when the key is present
(preserving insertion order), otherwise append a new entry. -/
def mapSet {α : Type} (m : List (String × α)) (k : String) (v : α) : List (String × α) :=
  match m with
  | [] => [(k, v)]
  | (k₁, v₁) :: rest => if k₁ = k then (k, v) :: rest else (k₁, v₁) :: mapSet rest k v

/-- JavaScript `Map.has`. -/
def mapHas {α : Type} (m : List (String × α)) (k : String) : Bool :=
  (mapGet m k).isSome

/-- JavaScript `Map.delete`. -/
def mapDelete {α : Type} (m : List (String × α)) (k : String) : List (String × α) :=
  m.filter (fun p => p.1 ≠ k)

/-- JavaScript truthiness of an optional string field: `undefined` and the
empty string are falsy, every other string is truthy. -/
def truthy (o : Option String) : Bool :=
  match o with
  | none => false
  | some s => s ≠ ""

/-- A value stored in `connectedComputers` (and in the per-connection
`computerInfo` closure variable): built by the `register-computer` handler. -/
structure ConnectedComputer where
  id : String
  name : String
  ip : String
  lastSeen : Nat
  capabilities : List (String × Bool)
  connectionCode : Option String
deriving DecidableEq, Repr

/-- A value stored in `registeredComputers`: built by `POST
/api/computers/register` and updated by the socket handlers.  No code path
ever stores an `ip` on a registered record, so the field is omitted (the
listing route falls back to the string `unknown` for it). -/
structure RegisteredComputer where
  id : String
  name : String
  status : String
  lastSeen : Nat
  connectionCode : String
deriving DecidableEq, Repr

/-- The server's global mutable state: the three `Map`s, plus the
`computerInfo` closure variable of each socket connection (only its `id`
field is ever read after registration, by the `disconnect` handler). -/
structure ServerState where
  connectedComputers : List (String × ConnectedComputer)
  registeredComputers : List (String × RegisteredComputer)
  connectionCodes : List (String × String)
  socketInfo : List (String × String)
deriving DecidableEq, Repr

/-- The state at server start: all maps empty. -/
def initialState : ServerState :=
  { connectedComputers := [], registeredComputers := [], connectionCodes := [], socketInfo := [] }

/-- Payload of a socket emission. -/
inductive Payload where
  | frameData (frame : String) (computerId : String)
      (timestamp : Option Nat) (frameNumber : Option Nat)
  | viewerRef (viewerId : String)
  | nameRef (computerName : String)
  | msg (message : String)
  | pairRef (computerId : String)
  | empty
deriving DecidableEq, Repr

/-- Where an emission is addressed: `io.to(room).emit` targets a room (each
socket is a member of exactly the room named by its own id — this server
never joins sockets to other rooms), `socket.emit` targets the sender, and
`io.emit` broadcasts to every connected socket. -/
inductive EmitTarget where
  | room (roomId : String)
  | socket (socketId : String)
  | broadcast
deriving DecidableEq, Repr

/-- One socket emission performed by a handler. -/
structure Emit where
  target : EmitTarget
  event : String
  payload : Payload
deriving DecidableEq, Repr

/-- The sockets that receive emission `e` given the list of connected socket
ids: a room emission reaches the socket whose id names the room (default
rooms only), a direct emission reaches that socket, a broadcast reaches all. -/
def deliversTo (sockets : List String) (w : String) (e : Emit) : Bool :=
  sockets.contains w &&
    match e.target with
    | .room r => r = w
    | .socket s => s = w
    | .broadcast => true

/-- The (event, payload) messages socket `w` receives from a list of
emissions, given the connected socket ids. -/
def deliveredTo (emits : List Emit) (sockets : List String) (w : String) :
    List (String × Payload) :=
  (emits.filter (deliversTo sockets w)).map (fun e => (e.event, e.payload))

/-- An entry of the JSON array returned by `GET /api/computers`. -/
structure ListedComputer where
  id : String
  name : String
  ip : String
  status : String
  lastSeen : Nat
deriving DecidableEq, Repr

/-- `GET /api/computers`: every connected computer as an `online` entry, then
every registered computer whose registry key is not a key of
`connectedComputers` as an `offline` entry (the skip test
`connectedComputers.has(id)` compares a durable registration id against the
socket-id keys of `connectedComputers`). -/
def getComputers (s : ServerState) : List ListedComputer :=
  (s.connectedComputers.map fun p =>
    { id := p.2.id, name := p.2.name, ip := p.2.ip, status := "online",
      lastSeen := p.2.lastSeen }) ++
  ((s.registeredComputers.filter fun p => ¬ mapHas s.connectedComputers p.1).map fun p =>
    { id := p.2.id, name := p.2.name, ip := "unknown", status := "offline",
      lastSeen := p.2.lastSeen })

/-- Response of `POST /api/computers/register`. -/
inductive RegisterResponse where
  | badRequest (message : String)
  | created (message : String) (id : String)
deriving DecidableEq, Repr

/-- `POST /api/computers/register`.  `now` is `Date.now()` and `freshId` is
the generated identifier (the source builds it from `Date.now()` and
`Math.random()`).  Missing or empty `name`/`connectionCode` gives a 400;
otherwise the durable record is stored, the pairing code is (re)bound to the
fresh id with no duplicate check, `computers-updated` is broadcast and a 201
with the fresh id is returned. -/
def registerComputerHttp (s : ServerState) (now : Nat)
    (name connectionCode : Option String) (freshId : String) :
    ServerState × RegisterResponse × List Emit :=
  if truthy name ∧ truthy connectionCode then
    let n := name.getD ""
    let c := connectionCode.getD ""
    let record : RegisteredComputer :=
      { id := freshId, name := n, status := "offline", lastSeen := now, connectionCode := c }
    ({ s with
        registeredComputers := mapSet s.registeredComputers freshId record,
        connectionCodes := mapSet s.connectionCodes c freshId },
     .created "Computer registered successfully" freshId,
     [⟨.broadcast, "computers-updated", .empty⟩])
  else
    (s, .badRequest "Computer name and connection code are required", [])

/-- Payload of the `register-computer` socket event. -/
structure RegisterData where
  name : String
  connectionCode : Option String
  capabilities : Option (List (String × Bool))
deriving DecidableEq, Repr

/-- The `register-computer` socket handler: when a truthy connection code is
bound in `connectionCodes` to an existing registered computer, the live
identity becomes that registered id and the registered name overrides the
supplied one; otherwise the socket id is the identity.  The record is stored
in `connectedComputers` under the socket id, the matching registered record
(if the identity is a registry key) is flipped online, and
`computers-updated` is broadcast. -/
def registerComputer (s : ServerState) (socketId ip : String) (now : Nat)
    (data : RegisterData) : ServerState × List Emit :=
  let idName : String × String :=
    match data.connectionCode with
    | some code =>
      if code ≠ "" then
        match mapGet s.connectionCodes code with
        | some registeredId =>
          match mapGet s.registeredComputers registeredId with
          | some registered => (registeredId, registered.name)
          | none => (socketId, data.name)
        | none => (socketId, data.name)
      else (socketId, data.name)
    | none => (socketId, data.name)
  let info : ConnectedComputer :=
    { id := idName.1, name := idName.2, ip := ip, lastSeen := now,
      capabilities := data.capabilities.getD [], connectionCode := data.connectionCode }
  let reg :=
    match mapGet s.registeredComputers idName.1 with
    | some r => mapSet s.registeredComputers idName.1
        { r with status := "online", lastSeen := now }
    | none => s.registeredComputers
  ({ s with
      connectedComputers := mapSet s.connectedComputers socketId info,
      registeredComputers := reg,
      socketInfo := mapSet s.socketInfo socketId idName.1 },
   [⟨.broadcast, "computers-updated", .empty⟩])

/-- Reply of the `pair-computer` handler. -/
inductive PairResponse where
  | paired (computerId : String)
  | pairError (message : String)
deriving DecidableEq, Repr

/-- The `pair-computer` socket handler: resolve a truthy bound code to the
computer id it maps to, else reply with a pair error.  No state change. -/
def pairComputer (s : ServerState) (connectionCode : Option String) : PairResponse :=
  match connectionCode with
  | some code =>
    if code ≠ "" then
      match mapGet s.connectionCodes code with
      | some computerId => .paired computerId
      | none => .pairError "Invalid connection code"
    else .pairError "Invalid connection code"
  | none => .pairError "Invalid connection code"

/-- Payload of the `webcam-frame` and `frame` socket events. -/
structure FrameData where
  viewerId : String
  frame : String
  timestamp : Nat
  frameNumber : Nat
deriving DecidableEq, Repr

/-- The `webcam-frame` socket handler: relay the frame to the room named by
`viewerId` twice — once as `webcam-frame` and once as `frame`, both tagged
with the sender's socket id as `computerId` — then refresh `lastSeen` on the
sender's connected record and on its registered counterpart when present. -/
def webcamFrame (s : ServerState) (socketId : String) (now : Nat) (d : FrameData) :
    ServerState × List Emit :=
  let p : Payload := .frameData d.frame socketId (some d.timestamp) (some d.frameNumber)
  let emits : List Emit :=
    [⟨.room d.viewerId, "webcam-frame", p⟩, ⟨.room d.viewerId, "frame", p⟩]
  match mapGet s.connectedComputers socketId with
  | some info =>
    let conn := mapSet s.connectedComputers socketId { info with lastSeen := now }
    let reg :=
      match mapGet s.registeredComputers info.id with
      | some r => mapSet s.registeredComputers info.id { r with lastSeen := now }
      | none => s.registeredComputers
    ({ s with connectedComputers := conn, registeredComputers := reg }, emits)
  | none => (s, emits)

/-- The `frame` socket handler: relay to the room named by `viewerId` as
`frame` then as `webcam-frame`, with no timestamp or frame number in the
payload and no state change. -/
def frameEvent (socketId : String) (d : FrameData) : List Emit :=
  let p : Payload := .frameData d.frame socketId none none
  [⟨.room d.viewerId, "frame", p⟩, ⟨.room d.viewerId, "webcam-frame", p⟩]

/-- The `request-stream` socket handler: look the requested `computerId` up
in `connectedComputers` (whose keys are socket ids); when found, tell that
room to start streaming to the requester and acknowledge the requester with
the target's name, otherwise reply with a stream error.  No state change. -/
def requestStream (s : ServerState) (socketId : String) (computerId : String) :
    List Emit :=
  match mapGet s.connectedComputers computerId with
  | some target =>
    [⟨.room computerId, "start-stream", .viewerRef socketId⟩,
     ⟨.socket socketId, "stream-ready", .nameRef target.name⟩]
  | none =>
    [⟨.socket socketId, "stream-error", .msg "Computer is not connected"⟩]

/-- The `stop-stream` socket handler: when `computerId` is truthy, forward a
`stop-stream` carrying the requester's id to that room.  The server keeps no
per-(source, viewer) session state, so nothing else happens. -/
def stopStream (socketId : String) (computerId : Option String) : List Emit :=
  match computerId with
  | some cid =>
    if cid ≠ "" then [⟨.room cid, "stop-stream", .viewerRef socketId⟩] else []
  | none => []

/-- Payload of the `heartbeat` event the monitored client emits every 15
seconds. -/
structure HeartbeatData where
  computerName : String
  timestamp : Nat
  activeStreams : List String
deriving DecidableEq, Repr

/-- The server's `io.on("connection")` block registers no listener for the
`heartbeat` event the client sends, so the event is discarded by socket.io
and the server state is unchanged. -/
def heartbeatEvent (s : ServerState) (_d : HeartbeatData) : ServerState := s

/-- The `disconnect` handler: when the socket had registered (its
`computerInfo` closure variable is set), delete its `connectedComputers`
entry, flip its registered counterpart offline when present, and broadcast
`computers-updated`. -/
def disconnectSocket (s : ServerState) (socketId : String) (now : Nat) :
    ServerState × List Emit :=
  match mapGet s.socketInfo socketId with
  | some infoId =>
    let reg :=
      match mapGet s.registeredComputers infoId with
      | some r => mapSet s.registeredComputers infoId
          { r with status := "offline", lastSeen := now }
      | none => s.registeredComputers
    ({ s with
        connectedComputers := mapDelete s.connectedComputers socketId,
        registeredComputers := reg },
     [⟨.broadcast, "computers-updated", .empty⟩])
  | none => (s, [])

/-- Mark a registered record offline at time `now`, exactly as the reaper and
the `disconnect` handler do. -/
def markOffline (r : RegisteredComputer) (now : Nat) : RegisteredComputer :=
  { r with status := "offline", lastSeen := now }

/-- The body of the reaper's `for` loop over `connectedComputers`: each entry
whose `now - lastSeen` exceeds 60000 ms is deleted (deleting the current
entry of a JavaScript `Map` during iteration is safe and keys are unique, so
the loop is a structural traversal), its registered counterpart is marked
offline when present, and one `computers-updated` broadcast is emitted per
eviction. -/
def reaperGo (now : Nat) :
    List (String × ConnectedComputer) → List (String × RegisteredComputer) →
    List (String × ConnectedComputer) × List (String × RegisteredComputer) × List Emit
  | [], reg => ([], reg, [])
  | (sid, c) :: rest, reg =>
    if now - c.lastSeen > 60000 then
      let reg1 :=
        match mapGet reg c.id with
        | some r => mapSet reg c.id (markOffline r now)
        | none => reg
      let res := reaperGo now rest reg1
      (res.1, res.2.1, (⟨.broadcast, "computers-updated", .empty⟩ : Emit) :: res.2.2)
    else
      let res := reaperGo now rest reg
      ((sid, c) :: res.1, res.2.1, res.2.2)

/-- One sweep of the 30-second stale-connection reaper at time `now`. -/
def reaperSweep (s : ServerState) (now : Nat) : ServerState × List Emit :=
  let res := reaperGo now s.connectedComputers s.registeredComputers
  ({ s with connectedComputers := res.1, registeredComputers := res.2.1 }, res.2.2)

/-- The live transport sessions currently carrying a given identity: the
socket-id keys of the `connectedComputers` entries whose stored `id` is that
identity. -/
def liveSessionsFor (s : ServerState) (identity : String) : List String :=
  (s.connectedComputers.filter fun p => p.2.id = identity).map (fun p => p.1)

/-- One state-changing event of the server.  `httpRegister` requires the
generated id to be fresh, which the source guarantees by building it from
`Date.now()` and `Math.random()`. -/
inductive Step : ServerState → ServerState → Prop where
  | httpRegister (s : ServerState) (now : Nat) (name code : Option String) (freshId : String)
      (hFresh : mapHas s.registeredComputers freshId = false) :
      Step s (registerComputerHttp s now name code freshId).1
  | socketRegister (s : ServerState) (socketId ip : String) (now : Nat) (data : RegisterData) :
      Step s (registerComputer s socketId ip now data).1
  | frame (s : ServerState) (socketId : String) (now : Nat) (d : FrameData) :
      Step s (webcamFrame s socketId now d).1
  | heartbeat (s : ServerState) (d : HeartbeatData) :
      Step s (heartbeatEvent s d)
  | disconnect (s : ServerState) (socketId : String) (now : Nat) :
      Step s (disconnectSocket s socketId now).1
  | reap (s : ServerState) (now : Nat) :
      Step s (reaperSweep s now).1

/-- States the server can reach from start-up by handling events. -/
inductive Reachable : ServerState → Prop where
  | init : Reachable initialState
  | step (s t : ServerState) : Reachable s → Step s t → Reachable t

/-! Lemmas about the `Map` model. -/

theorem mapGet_mapSet_self {α : Type} (m : List (String × α)) (k : String) (v : α) :
    mapGet (mapSet m k v) k = some v := by
  induction m with
  | nil => simp [mapSet, mapGet]
  | cons p rest ih =>
    obtain ⟨k₁, v₁⟩ := p
    by_cases h : k₁ = k
    · simp [mapSet, mapGet, h]
    · simp [mapSet, mapGet, h, ih]

theorem mapGet_mapSet_ne {α : Type} {m : List (String × α)} {k k' : String} {v : α}
    (h : k' ≠ k) : mapGet (mapSet m k v) k' = mapGet m k' := by
  have h' : k ≠ k' := Ne.symm h
  induction m with
  | nil => simp [mapSet, mapGet, h']
  | cons p rest ih =>
    obtain ⟨k₁, v₁⟩ := p
    by_cases hk : k₁ = k
    · subst hk
      simp [mapSet, mapGet, h']
    · simp [mapSet, mapGet, hk, ih]

theorem mapHas_mapSet_of_mapHas {α : Type} {m : List (String × α)} {k k' : String}
    (v : α) (h : mapHas m k' = true) : mapHas (mapSet m k v) k' = true := by
  by_cases hk : k' = k
  · subst hk
    simp [mapHas, mapGet_mapSet_self]
  · simpa [mapHas, mapGet_mapSet_ne hk] using h

/-! Closed forms of the handlers, used by several claims. -/

theorem webcamFrame_snd (s : ServerState) (socketId : String) (now : Nat) (d : FrameData) :
    (webcamFrame s socketId now d).2 =
      [⟨.room d.viewerId, "webcam-frame",
          .frameData d.frame socketId (some d.timestamp) (some d.frameNumber)⟩,
       ⟨.room d.viewerId, "frame",
          .frameData d.frame socketId (some d.timestamp) (some d.frameNumber)⟩] := by
  unfold webcamFrame
  cases mapGet s.connectedComputers socketId <;> simp

theorem registerComputer_reconciled (s : ServerState) (socketId ip : String) (now : Nat)
    (n c R : String) (caps : Option (List (String × Bool))) (r : RegisteredComputer)
    (hc : c ≠ "") (hcode : mapGet s.connectionCodes c = some R)
    (hreg : mapGet s.registeredComputers R = some r) :
    registerComputer s socketId ip now { name := n, connectionCode := some c, capabilities := caps } =
      ({ s with
          connectedComputers := mapSet s.connectedComputers socketId
            { id := R, name := r.name, ip := ip, lastSeen := now,
              capabilities := caps.getD [], connectionCode := some c },
          registeredComputers := mapSet s.registeredComputers R
            { r with status := "online", lastSeen := now },
          socketInfo := mapSet s.socketInfo socketId R },
       [⟨.broadcast, "computers-updated", .empty⟩]) := by
  simp [registerComputer, hc, hcode, hreg]

theorem reaperGo_connected (now : Nat) (l : List (String × ConnectedComputer))
    (reg : List (String × RegisteredComputer)) :
    (reaperGo now l reg).1 = l.filter (fun p => ! decide (now - p.2.lastSeen > 60000)) := by
  induction l generalizing reg with
  | nil => simp [reaperGo]
  | cons p rest ih =>
    obtain ⟨sid, c⟩ := p
    by_cases h : now - c.lastSeen > 60000
    · simp [reaperGo, h, ih]
    · simp [reaperGo, h, ih]

theorem reaperGo_emits (now : Nat) (l : List (String × ConnectedComputer))
    (reg : List (String × RegisteredComputer)) :
    (reaperGo now l reg).2.2 =
      List.replicate (l.countP (fun p => decide (now - p.2.lastSeen > 60000)))
        ⟨.broadcast, "computers-updated", .empty⟩ := by
  induction l generalizing reg with
  | nil => simp [reaperGo]
  | cons p rest ih =>
    obtain ⟨sid, c⟩ := p
    by_cases h : now - c.lastSeen > 60000
    · simp [reaperGo, h, ih, List.countP_cons, List.replicate_succ]
    · simp [reaperGo, h, ih, List.countP_cons]

theorem reaperGo_preserves_offline (now : Nat) (l : List (String × ConnectedComputer))
    (reg : List (String × RegisteredComputer)) (k : String) (r : RegisteredComputer)
    (hget : mapGet reg k = some r) (hstat : r.status = "offline") (hseen : r.lastSeen = now) :
    ∃ r', mapGet (reaperGo now l reg).2.1 k = some r' ∧
      r'.status = "offline" ∧ r'.lastSeen = now := by
  induction l generalizing reg r with
  | nil => exact ⟨r, by simpa [reaperGo] using hget, hstat, hseen⟩
  | cons p rest ih =>
    obtain ⟨sid, c⟩ := p
    by_cases h : now - c.lastSeen > 60000
    · rcases hcid : mapGet reg c.id with _ | r₀
      · simpa [reaperGo, h, hcid] using ih reg r hget hstat hseen
      · by_cases hk : c.id = k
        · subst hk
          have : mapGet (mapSet reg c.id (markOffline r₀ now)) c.id =
              some (markOffline r₀ now) := mapGet_mapSet_self _ _ _
          simpa [reaperGo, h, hcid] using
            ih (mapSet reg c.id (markOffline r₀ now)) (markOffline r₀ now) this rfl rfl
        · have : mapGet (mapSet reg c.id (markOffline r₀ now)) k = some r := by
            rw [mapGet_mapSet_ne (fun e => hk e.symm)]; exact hget
          simpa [reaperGo, h, hcid] using
            ih (mapSet reg c.id (markOffline r₀ now)) r this hstat hseen
    · simpa [reaperGo, h] using ih reg r hget hstat hseen

theorem reaperGo_evicted_offline (now : Nat) (l : List (String × ConnectedComputer))
    (reg : List (String × RegisteredComputer)) (sid : String) (c : ConnectedComputer)
    (hmem : (sid, c) ∈ l) (hstale : now - c.lastSeen > 60000)
    (hhas : mapHas reg c.id = true) :
    ∃ r', mapGet (reaperGo now l reg).2.1 c.id = some r' ∧
      r'.status = "offline" ∧ r'.lastSeen = now := by
  induction l generalizing reg with
  | nil => cases hmem
  | cons p rest ih =>
    obtain ⟨sid₁, c₁⟩ := p
    rcases List.mem_cons.mp hmem with hhead | htail
    · injection hhead with h₁ h₂
      subst h₁; subst h₂
      rcases hcid : mapGet reg c.id with _ | r₀
      · rw [mapHas, hcid] at hhas; cases hhas
      · have hself : mapGet (mapSet reg c.id (markOffline r₀ now)) c.id =
            some (markOffline r₀ now) := mapGet_mapSet_self _ _ _
        simpa [reaperGo, hstale, hcid] using
          reaperGo_preserves_offline now rest (mapSet reg c.id (markOffline r₀ now))
            c.id (markOffline r₀ now) hself rfl rfl
    · by_cases h₁ : now - c₁.lastSeen > 60000
      · rcases hcid : mapGet reg c₁.id with _ | r₀
        · simpa [reaperGo, h₁, hcid] using ih reg htail hhas
        · have hhas' : mapHas (mapSet reg c₁.id (markOffline r₀ now)) c.id = true :=
            mapHas_mapSet_of_mapHas _ hhas
          simpa [reaperGo, h₁, hcid] using
            ih (mapSet reg c₁.id (markOffline r₀ now)) htail hhas'
      · simpa [reaperGo, h₁] using ih reg htail hhas

/-! A concrete trace used by several claims: an explicit durable
registration (`POST /api/computers/register` with name `Lab-PC` and code
`ABC123`, producing id `reg_1`), followed by the live source `sockS`
reconnecting through `register-computer` with that code. -/

/-- State after the durable registration of `Lab-PC` under code `ABC123`. -/
def exS1 : ServerState :=
  (registerComputerHttp initialState 1000 (some "Lab-PC") (some "ABC123") "reg_1").1

/-- State after socket `sockS` registers live with code `ABC123` and is
reconciled to the durable id `reg_1`. -/
def exS2 : ServerState :=
  (registerComputer exS1 "sockS" "1.2.3.4" 2000
    { name := "S", connectionCode := some "ABC123", capabilities := none }).1

/-- State after a second socket `sockB` registers live with the same code
`ABC123`, also reconciled to `reg_1`. -/
def exS3 : ServerState :=
  (registerComputer exS2 "sockB" "5.6.7.8" 3000
    { name := "B", connectionCode := some "ABC123", capabilities := none }).1

/-- State after two codeless sources `sockA` and `sockB` register live. -/
def exTwo : ServerState :=
  (registerComputer
    (registerComputer initialState "sockA" "ipA" 1000
      { name := "A", connectionCode := none, capabilities := none }).1
    "sockB" "ipB" 2000
    { name := "B", connectionCode := none, capabilities := none }).1

/-! The claims. -/

/-- Claim C1: after `Lab-PC` registers durably under code `ABC123` and the
live source `sockS` reconnects with that code, a viewer that pairs the code
does get the durable id `reg_1`, but `request-stream` with that durable id is
answered with `stream-error` — not with the claimed `stream-ready` carrying
the display name — because the handler looks the id up in
`connectedComputers`, which is keyed by the transport socket id `sockS`. -/
theorem claim_C1_pair_then_requestStream_yields_stream_error :
    pairComputer exS2 (some "ABC123") = .paired "reg_1" ∧
    requestStream exS2 "sockV" "reg_1" =
      [⟨.socket "sockV", "stream-error", .msg "Computer is not connected"⟩] := by
  decide

/-- Claim C2: in the same state — durable source `reg_1` live through socket
`sockS` — `GET /api/computers` returns two entries with durable id `reg_1`,
one `online` and one `offline`, because the route's skip test
`connectedComputers.has(id)` compares the durable id against socket-id keys
and never fires. -/
theorem claim_C2_listing_contains_online_and_offline_duplicate :
    (getComputers exS2).map (fun e => (e.id, e.status)) =
      [("reg_1", "online"), ("reg_1", "offline")] := by
  decide

/-- Claim C3, counterexample: the state `exS3`, in which sockets `sockS` and
`sockB` both registered with pairing code `ABC123`, is reachable from server
start, and in it the durable identity `reg_1` is carried by two live
transport sessions — the later registration did not supersede the earlier
mapping. -/
theorem claim_C3_counterexample_two_live_sessions :
    Reachable exS3 ∧ liveSessionsFor exS3 "reg_1" = ["sockS", "sockB"] := by
  refine ⟨?_, by decide⟩
  have h1 : Reachable exS1 :=
    Reachable.step _ _ Reachable.init
      (Step.httpRegister initialState 1000 (some "Lab-PC") (some "ABC123") "reg_1" (by decide))
  have h2 : Reachable exS2 :=
    Reachable.step _ _ h1
      (Step.socketRegister exS1 "sockS" "1.2.3.4" 2000
        { name := "S", connectionCode := some "ABC123", capabilities := none })
  exact Reachable.step _ _ h2
    (Step.socketRegister exS2 "sockB" "5.6.7.8" 3000
      { name := "B", connectionCode := some "ABC123", capabilities := none })

/-- Claim C3, amended: when a second transport session registers with a
pairing code that is bound to a registered computer, it is reconciled to the
same durable identity as the first session, but the first session's mapping
is not removed: both live sessions then carry the durable identity. -/
theorem claim_C3_second_registration_adds_session
    (s : ServerState) (a b ip₁ ip₂ : String) (t₁ t₂ : Nat) (n₁ n₂ c R : String)
    (r : RegisteredComputer) (hab : a ≠ b) (hc : c ≠ "")
    (hcode : mapGet s.connectionCodes c = some R)
    (hreg : mapGet s.registeredComputers R = some r) :
    (mapGet ((registerComputer
        (registerComputer s a ip₁ t₁
          { name := n₁, connectionCode := some c, capabilities := none }).1
        b ip₂ t₂
          { name := n₂, connectionCode := some c, capabilities := none }).1).connectedComputers
      a).map (fun i => i.id) = some R ∧
    (mapGet ((registerComputer
        (registerComputer s a ip₁ t₁
          { name := n₁, connectionCode := some c, capabilities := none }).1
        b ip₂ t₂
          { name := n₂, connectionCode := some c, capabilities := none }).1).connectedComputers
      b).map (fun i => i.id) = some R := by
  rw [registerComputer_reconciled s a ip₁ t₁ n₁ c R none r hc hcode hreg]
  have hcode1 : mapGet ({ s with
      connectedComputers := mapSet s.connectedComputers a
        { id := R, name := r.name, ip := ip₁, lastSeen := t₁,
          capabilities := (none : Option (List (String × Bool))).getD [],
          connectionCode := some c },
      registeredComputers := mapSet s.registeredComputers R
        { r with status := "online", lastSeen := t₁ },
      socketInfo := mapSet s.socketInfo a R } : ServerState).connectionCodes c = some R := hcode
  have hreg1 : mapGet ({ s with
      connectedComputers := mapSet s.connectedComputers a
        { id := R, name := r.name, ip := ip₁, lastSeen := t₁,
          capabilities := (none : Option (List (String × Bool))).getD [],
          connectionCode := some c },
      registeredComputers := mapSet s.registeredComputers R
        { r with status := "online", lastSeen := t₁ },
      socketInfo := mapSet s.socketInfo a R } : ServerState).registeredComputers R =
      some { r with status := "online", lastSeen := t₁ } := mapGet_mapSet_self _ _ _
  rw [registerComputer_reconciled _ b ip₂ t₂ n₂ c R none _ hc hcode1 hreg1]
  constructor
  · rw [show (({ s with
        connectedComputers := mapSet s.connectedComputers a
          { id := R, name := r.name, ip := ip₁, lastSeen := t₁,
            capabilities := (none : Option (List (String × Bool))).getD [],
            connectionCode := some c },
        registeredComputers := mapSet s.registeredComputers R
          { r with status := "online", lastSeen := t₁ },
        socketInfo := mapSet s.socketInfo a R } : ServerState)).connectedComputers =
      mapSet s.connectedComputers a
        { id := R, name := r.name, ip := ip₁, lastSeen := t₁,
          capabilities := (none : Option (List (String × Bool))).getD [],
          connectionCode := some c } from rfl]
    rw [mapGet_mapSet_ne hab, mapGet_mapSet_self]
    rfl
  · rw [mapGet_mapSet_self]
    rfl

/-- Claim C3, amended, instantiated on the concrete two-socket trace. -/
theorem claim_C3_second_registration_adds_session_witness :
    (mapGet exS3.connectedComputers "sockS").map (fun i => i.id) = some "reg_1" ∧
    (mapGet exS3.connectedComputers "sockB").map (fun i => i.id) = some "reg_1" :=
  claim_C3_second_registration_adds_session exS1 "sockS" "sockB" "1.2.3.4" "5.6.7.8"
    2000 3000 "S" "B" "ABC123" "reg_1"
    { id := "reg_1", name := "Lab-PC", status := "offline", lastSeen := 1000,
      connectionCode := "ABC123" }
    (by decide) (by decide) (by decide) (by decide)

/-- Claim C4, counterexample: with `ABC123` already bound to `reg_1`, a
second `POST /api/computers/register` supplying the same code is answered
with 201 and a fresh id `reg_2`, and the code is silently rebound to
`reg_2` — no duplicate-code failure and no unchanged registry. -/
theorem claim_C4_counterexample_duplicate_code_accepted :
    mapGet exS1.connectionCodes "ABC123" = some "reg_1" ∧
    (registerComputerHttp exS1 5000 (some "Other") (some "ABC123") "reg_2").2.1 =
      .created "Computer registered successfully" "reg_2" ∧
    mapGet (registerComputerHttp exS1 5000 (some "Other")
        (some "ABC123") "reg_2").1.connectionCodes "ABC123" = some "reg_2" := by
  decide

/-- Claim C4, amended: `POST /api/computers/register` performs no
duplicate-code check at all.  Whenever name and connection code are both
present and non-empty it returns 201 with the fresh id, stores the durable
record, and rebinds the code to the fresh id (superseding any previous
binding); it returns 400 with the registry untouched exactly when a field is
missing or empty. -/
theorem claim_C4_register_unconditionally_creates
    (s : ServerState) (now : Nat) (name code : Option String) (freshId : String) :
    (truthy name = true → truthy code = true →
      registerComputerHttp s now name code freshId =
        ({ s with
            registeredComputers := mapSet s.registeredComputers freshId
              { id := freshId, name := name.getD "", status := "offline",
                lastSeen := now, connectionCode := code.getD "" },
            connectionCodes := mapSet s.connectionCodes (code.getD "") freshId },
         .created "Computer registered successfully" freshId,
         [⟨.broadcast, "computers-updated", .empty⟩])) ∧
    (truthy name = false ∨ truthy code = false →
      registerComputerHttp s now name code freshId =
        (s, .badRequest "Computer name and connection code are required", [])) := by
  constructor
  · intro h1 h2
    simp [registerComputerHttp, h1, h2]
  · rintro (h | h) <;> simp [registerComputerHttp, h]

/-- Claim C4, amended, instantiated at the duplicate-code request. -/
theorem claim_C4_register_unconditionally_creates_witness :
    registerComputerHttp exS1 5000 (some "Other") (some "ABC123") "reg_2" =
      ({ exS1 with
          registeredComputers := mapSet exS1.registeredComputers "reg_2"
            { id := "reg_2", name := "Other", status := "offline",
              lastSeen := 5000, connectionCode := "ABC123" },
          connectionCodes := mapSet exS1.connectionCodes "ABC123" "reg_2" },
       .created "Computer registered successfully" "reg_2",
       [⟨.broadcast, "computers-updated", .empty⟩]) :=
  (claim_C4_register_unconditionally_creates exS1 5000 (some "Other")
    (some "ABC123") "reg_2").1 (by decide) (by decide)

/-- Claim C5: the client emits `heartbeat` every 15 seconds, but the server
registers no handler for it, so the events leave the state unchanged and a
source that heartbeats without sending frames is evicted by the reaper once
60 seconds have passed since its registration — here it registered at
t = 2000 ms, heartbeat at t = 65000 ms, and the sweep at t = 70000 ms still
evicts it and flips its durable record offline. -/
theorem claim_C5_heartbeat_ignored_source_still_evicted :
    heartbeatEvent (heartbeatEvent exS2
        { computerName := "Lab-PC", timestamp := 15000, activeStreams := [] })
      { computerName := "Lab-PC", timestamp := 65000, activeStreams := [] } = exS2 ∧
    (reaperSweep exS2 70000).1.connectedComputers = [] ∧
    (mapGet (reaperSweep exS2 70000).1.registeredComputers "reg_1").map
      (fun r => r.status) = some "offline" := by
  decide

/-- Claim C6, counterexample: executing `stop-stream` for the pair
(`sockS`, `sockV`) only forwards a stop signal to the source and changes no
server state, and a subsequent `webcam-frame` from `sockS` addressed to
`sockV` is still delivered to the viewer twice. -/
theorem claim_C6_counterexample_frame_after_stop_still_delivered :
    stopStream "sockV" (some "sockS") =
      [⟨.room "sockS", "stop-stream", .viewerRef "sockV"⟩] ∧
    deliveredTo (webcamFrame exS2 "sockS" 3000
        { viewerId := "sockV", frame := "F2", timestamp := 3000, frameNumber := 2 }).2
      ["sockS", "sockV"] "sockV" =
      [("webcam-frame", .frameData "F2" "sockS" (some 3000) (some 2)),
       ("frame", .frameData "F2" "sockS" (some 3000) (some 2))] := by
  decide

/-- Claim C6, amended: `stop-stream` merely forwards a stop signal to the
source's room; the server keeps no per-(source, viewer) session state, so any
frame the source still sends for that viewer is relayed and delivered —
delivery ceases only once the source itself stops producing. -/
theorem claim_C6_stop_stream_keeps_relay_open
    (s : ServerState) (viewerSocket cid : String) (hcid : cid ≠ "")
    (socketId : String) (now : Nat) (d : FrameData) (sockets : List String)
    (hmem : sockets.contains d.viewerId = true) :
    stopStream viewerSocket (some cid) =
      [⟨.room cid, "stop-stream", .viewerRef viewerSocket⟩] ∧
    deliveredTo (webcamFrame s socketId now d).2 sockets d.viewerId =
      [("webcam-frame", .frameData d.frame socketId (some d.timestamp) (some d.frameNumber)),
       ("frame", .frameData d.frame socketId (some d.timestamp) (some d.frameNumber))] := by
  constructor
  · simp [stopStream, hcid]
  · have hmem' : d.viewerId ∈ sockets := by simpa using hmem
    rw [webcamFrame_snd]
    simp [deliveredTo, deliversTo, hmem']

/-- Claim C6, amended, instantiated on the concrete trace. -/
theorem claim_C6_stop_stream_keeps_relay_open_witness :
    stopStream "sockV" (some "sockS") =
      [⟨.room "sockS", "stop-stream", .viewerRef "sockV"⟩] ∧
    deliveredTo (webcamFrame exS2 "sockS" 4000
        { viewerId := "sockV", frame := "F3", timestamp := 4000, frameNumber := 3 }).2
      ["sockS", "sockV"] "sockV" =
      [("webcam-frame", .frameData "F3" "sockS" (some 4000) (some 3)),
       ("frame", .frameData "F3" "sockS" (some 4000) (some 3))] :=
  claim_C6_stop_stream_keeps_relay_open exS2 "sockV" "sockS" (by decide) "sockS" 4000
    { viewerId := "sockV", frame := "F3", timestamp := 4000, frameNumber := 3 }
    ["sockS", "sockV"] (by decide)

/-- Claim C7, counterexample: a sweep over two sources that both exceeded the
60-second window evicts both but broadcasts `computers-updated` twice — one
signal per eviction, not the claimed single signal per sweep. -/
theorem claim_C7_counterexample_one_signal_per_eviction :
    (reaperSweep exTwo 100000).1.connectedComputers = [] ∧
    (reaperSweep exTwo 100000).2 =
      [⟨.broadcast, "computers-updated", .empty⟩,
       ⟨.broadcast, "computers-updated", .empty⟩] := by
  decide

/-- Claim C7, amended: each sweep at time `now` evicts exactly the connected
sources with `now - lastSeen > 60000` ms, marks the durable counterpart of
each evicted source offline with `lastSeenAt = now`, and broadcasts one
`computers-updated` signal per eviction (so a sweep with k evictions emits k
signals, and a sweep with none emits none). -/
theorem claim_C7_reaper_sweep_spec (s : ServerState) (now : Nat) :
    (reaperSweep s now).1.connectedComputers =
      s.connectedComputers.filter (fun p => ! decide (now - p.2.lastSeen > 60000)) ∧
    (reaperSweep s now).2 =
      List.replicate
        (s.connectedComputers.countP (fun p => decide (now - p.2.lastSeen > 60000)))
        ⟨.broadcast, "computers-updated", .empty⟩ ∧
    ∀ sid c, (sid, c) ∈ s.connectedComputers → now - c.lastSeen > 60000 →
      mapHas s.registeredComputers c.id = true →
      ∃ r', mapGet (reaperSweep s now).1.registeredComputers c.id = some r' ∧
        r'.status = "offline" ∧ r'.lastSeen = now := by
  refine ⟨reaperGo_connected now _ _, reaperGo_emits now _ _, ?_⟩
  intro sid c hmem hstale hhas
  exact reaperGo_evicted_offline now _ _ sid c hmem hstale hhas

/-- Claim C7, amended, instantiated at the sweep that evicts `sockS`. -/
theorem claim_C7_reaper_sweep_spec_witness :
    (reaperSweep exS2 70000).1.connectedComputers =
      exS2.connectedComputers.filter (fun p => ! decide (70000 - p.2.lastSeen > 60000)) ∧
    ∃ r', mapGet (reaperSweep exS2 70000).1.registeredComputers "reg_1" = some r' ∧
      r'.status = "offline" ∧ r'.lastSeen = 70000 := by
  have h := claim_C7_reaper_sweep_spec exS2 70000
  refine ⟨h.1, ?_⟩
  exact h.2.2 "sockS"
    { id := "reg_1", name := "Lab-PC", ip := "1.2.3.4", lastSeen := 2000,
      capabilities := [], connectionCode := some "ABC123" }
    (by decide) (by decide) (by decide)

/-- Claim C8: a `webcam-frame` addressed to a viewer id that is not among the
connected sockets delivers nothing to anyone — both relayed emissions target
only the room named by that viewer id — and the handler is a total function,
so nothing is thrown on the relay path. -/
theorem claim_C8_frame_to_unknown_viewer_delivers_nothing
    (s : ServerState) (socketId : String) (now : Nat) (d : FrameData)
    (sockets : List String) (hv : sockets.contains d.viewerId = false) :
    ∀ w, deliveredTo (webcamFrame s socketId now d).2 sockets w = [] := by
  intro w
  rw [webcamFrame_snd]
  by_cases hw : d.viewerId = w
  · subst hw
    have hv' : d.viewerId ∉ sockets := by simpa using hv
    simp [deliveredTo, deliversTo, hv']
  · simp [deliveredTo, deliversTo, hw]

/-- Claim C8, instantiated: a frame addressed to the unconnected viewer id
`nobody` delivers nothing to the connected socket `sockS`. -/
theorem claim_C8_frame_to_unknown_viewer_delivers_nothing_witness :
    deliveredTo (webcamFrame exS2 "sockS" 3000
        { viewerId := "nobody", frame := "F2", timestamp := 3000, frameNumber := 2 }).2
      ["sockS"] "sockS" = [] :=
  claim_C8_frame_to_unknown_viewer_delivers_nothing exS2 "sockS" 3000
    { viewerId := "nobody", frame := "F2", timestamp := 3000, frameNumber := 2 }
    ["sockS"] (by decide) "sockS"

/-- Claim C9: a durable registration under an unused pairing code followed by
`pair-computer` with that code returns exactly the id the registration
created. -/
theorem claim_C9_registerDurable_then_pair_returns_id
    (s : ServerState) (now : Nat) (name code freshId : String)
    (hn : name ≠ "") (hc : code ≠ "")
    (hunbound : mapHas s.connectionCodes code = false) :
    (registerComputerHttp s now (some name) (some code) freshId).2.1 =
      .created "Computer registered successfully" freshId ∧
    pairComputer (registerComputerHttp s now (some name) (some code) freshId).1
      (some code) = .paired freshId := by
  constructor
  · simp [registerComputerHttp, truthy, hn, hc]
  · simp [registerComputerHttp, pairComputer, truthy, hn, hc, mapGet_mapSet_self]

/-- Claim C9, instantiated on the `Lab-PC` registration. -/
theorem claim_C9_registerDurable_then_pair_returns_id_witness :
    (registerComputerHttp initialState 1000 (some "Lab-PC") (some "ABC123") "reg_1").2.1 =
      .created "Computer registered successfully" "reg_1" ∧
    pairComputer exS1 (some "ABC123") = .paired "reg_1" :=
  claim_C9_registerDurable_then_pair_returns_id initialState 1000 "Lab-PC" "ABC123"
    "reg_1" (by decide) (by decide) (by decide)

/-- Claim C10: every `webcam-frame` event is relayed to the addressed
viewer's room twice — once as `webcam-frame` and once as `frame` — with the
identical payload, tagged with the sender's transport socket id as
`computerId` (the handler uses `socket.id`, never the durable identity
stored in the connected record), and a connected viewer therefore receives
both messages. -/
theorem claim_C10_webcam_frame_relayed_twice_with_socket_id
    (s : ServerState) (socketId : String) (now : Nat) (d : FrameData)
    (sockets : List String) (hmem : sockets.contains d.viewerId = true) :
    (webcamFrame s socketId now d).2 =
      [⟨.room d.viewerId, "webcam-frame",
          .frameData d.frame socketId (some d.timestamp) (some d.frameNumber)⟩,
       ⟨.room d.viewerId, "frame",
          .frameData d.frame socketId (some d.timestamp) (some d.frameNumber)⟩] ∧
    deliveredTo (webcamFrame s socketId now d).2 sockets d.viewerId =
      [("webcam-frame", .frameData d.frame socketId (some d.timestamp) (some d.frameNumber)),
       ("frame", .frameData d.frame socketId (some d.timestamp) (some d.frameNumber))] := by
  refine ⟨webcamFrame_snd s socketId now d, ?_⟩
  have hmem' : d.viewerId ∈ sockets := by simpa using hmem
  rw [webcamFrame_snd]
  simp [deliveredTo, deliversTo, hmem']

/-- Claim C10, instantiated: frame 1 from the reconciled source `sockS`
(durable id `reg_1`) reaches viewer `sockV` twice, tagged `sockS`. -/
theorem claim_C10_webcam_frame_relayed_twice_with_socket_id_witness :
    deliveredTo (webcamFrame exS2 "sockS" 2500
        { viewerId := "sockV", frame := "F1", timestamp := 2500, frameNumber := 1 }).2
      ["sockS", "sockV"] "sockV" =
      [("webcam-frame", .frameData "F1" "sockS" (some 2500) (some 1)),
       ("frame", .frameData "F1" "sockS" (some 2500) (some 1))] :=
  (claim_C10_webcam_frame_relayed_twice_with_socket_id exS2 "sockS" 2500
    { viewerId := "sockV", frame := "F1", timestamp := 2500, frameNumber := 1 }
    ["sockS", "sockV"] (by decide)).2

end RemoteMonitor
